import Mathlib

/-!
Shallow embedding of the transcription pipeline of `app-transcribe`
(`src/app/api/transcribe/route.ts` and `src/lib/whisper.ts`).

External collaborators (the Prisma record store, the OpenAI client, `fetch`,
`ffmpeg`, the filesystem) are modelled as explicit parameters describing the
outcome of each call; the control flow of the two source files is translated
statement by statement.  JavaScript truthiness tests that appear in the source
(`if (!videoId)`, `video.transcription`, `result.duration ? ... : ...`,
`if (videoPath || audioPath)`, `.filter(Boolean)`) are modelled exactly:
for a string-valued field, falsy means absent (`none`) or the empty string;
for a numeric field, falsy means absent or zero.
-/

namespace AppTranscribe

/-- The `TranscriptionStatus` enum of the Prisma schema
(`CREATE TYPE "TranscriptionStatus" AS ENUM (NONE, PROCESSING, COMPLETED, FAILED)`). -/
inductive TranscriptionStatus where
  | NONE
  | PROCESSING
  | COMPLETED
  | FAILED
deriving DecidableEq, Repr

/-- The fields of a `Video` row that the transcription route reads or writes.
`transcription` is nullable text, `duration` is nullable numeric. -/
structure VideoRecord where
  id : String
  fileKey : String
  transcription : Option String
  transcriptionStatus : TranscriptionStatus
  duration : Option ℚ
deriving DecidableEq, Repr

/-- The `TranscriptionResult` interface of `whisper.ts`:
`{ text: string; duration?: number }`. -/
structure TranscriptionResult where
  text : String
  duration : Option ℚ
deriving DecidableEq, Repr

/-- A JavaScript thrown value, as far as the route inspects it:
`some msg` is an `Error` whose `.message` is `msg`; `none` is any thrown
value that is not an `Error` instance. -/
abbrev Thrown := Option String

/-- The route's inner catch computes
`error instanceof Error ? error.message : "Transcription failed"`. -/
def errMessage (e : Thrown) (fallback : String) : String :=
  match e with
  | some m => m
  | none => fallback

/-- JavaScript truthiness of a possibly-absent string value: `undefined`,
`null` and `""` are falsy, every other string is truthy. -/
def truthyStr : Option String → Bool
  | none => false
  | some s => s ≠ ""

/-- JavaScript truthiness of a possibly-absent numeric value: `undefined`,
`null` and `0` are falsy. -/
def truthyNum : Option ℚ → Bool
  | none => false
  | some q => q ≠ 0

/-- `Math.round` on a (finite, non-NaN) numeric value: round to the nearest
integer, ties towards positive infinity. -/
def jsRound (q : ℚ) : ℤ := ⌊q + 1 / 2⌋

/-- One `prisma.video.update({ data })` call, recording exactly the fields
present in the `data` object: `status` is always present in the three update
calls of the route; `transcription` / `duration` are `some v` when the update
sets the column to `v`, `none` when the column is absent from the update. -/
structure DbWrite where
  status : TranscriptionStatus
  transcription : Option String := none
  duration : Option (Option ℚ) := none
deriving DecidableEq, Repr

/-- Field-level application of an update to a row. -/
def applyWrite (r : VideoRecord) (w : DbWrite) : VideoRecord :=
  { r with
    transcriptionStatus := w.status
    transcription := match w.transcription with
      | none => r.transcription
      | some t => some t
    duration := match w.duration with
      | none => r.duration
      | some d => d }

/-- Outcome of `await request.json()` followed by destructuring `videoId`:
either the JSON parse throws, or it yields a (possibly absent) `videoId`. -/
inductive ReqBody where
  | parseError
  | ok (videoId : Option String)
deriving DecidableEq, Repr

/-- The configuration the route reads: whether `process.env.OPENAI_API_KEY`
is set. -/
structure Config where
  apiKeyConfigured : Bool
deriving DecidableEq, Repr

/-- Behaviour of the record store during one request: the row
`findUnique` would return for the requested id, and whether each of the
four store operations throws.  The success-path update's thrown value can
surface in the response (it is caught by the inner catch), so it carries a
`Thrown`; the other operations' thrown values never surface. -/
structure DbEnv where
  record : Option VideoRecord
  findThrows : Bool
  procWriteThrows : Bool
  succWriteThrows : Option Thrown
  failWriteThrows : Bool
deriving DecidableEq, Repr

/-- The JSON body and HTTP status of a `NextResponse.json` produced by the
route.  Absent body fields are `none`; `bodyStatus` is the body's `status`
field, `httpStatus` the HTTP status code. -/
structure JsonResponse where
  httpStatus : Nat
  error : Option String := none
  success : Option Bool := none
  transcription : Option (Option String) := none
  bodyStatus : Option String := none
  cached : Option Bool := none
  duration : Option (Option ℚ) := none
deriving DecidableEq, Repr

/-- Everything observable about one invocation of the route handler:
the response, the sequence of successful record-store writes (in order),
the number of `findUnique` calls issued, whether `transcribeVideo` was
invoked, and the row's final state (the found row with the successful
writes applied; `none` when no row was found). -/
structure HandlerOutput where
  response : JsonResponse
  writes : List DbWrite
  finds : Nat
  pipelineInvoked : Bool
  finalRecord : Option VideoRecord
deriving DecidableEq, Repr

/-- The outer catch's response: `500 { error: "Internal server error" }`. -/
def internalError : JsonResponse :=
  { httpStatus := 500, error := some "Internal server error" }

/-- The `POST` handler of `src/app/api/transcribe/route.ts`, translated
branch by branch.  `pipe` is the outcome of the (single possible) call
`await transcribeVideo(videoUrl)`. -/
def POST (req : ReqBody) (cfg : Config) (db : DbEnv)
    (pipe : Except Thrown TranscriptionResult) : HandlerOutput :=
  match req with
  | .parseError =>
      { response := internalError, writes := [], finds := 0,
        pipelineInvoked := false, finalRecord := db.record }
  | .ok videoId =>
    if truthyStr videoId = false then
      { response := { httpStatus := 400, error := some "Video ID is required" },
        writes := [], finds := 0, pipelineInvoked := false,
        finalRecord := db.record }
    else if cfg.apiKeyConfigured = false then
      { response := { httpStatus := 500, error := some "OpenAI API key not configured" },
        writes := [], finds := 0, pipelineInvoked := false,
        finalRecord := db.record }
    else if db.findThrows then
      { response := internalError, writes := [], finds := 1,
        pipelineInvoked := false, finalRecord := db.record }
    else
      match db.record with
      | none =>
          { response := { httpStatus := 404, error := some "Video not found" },
            writes := [], finds := 1, pipelineInvoked := false,
            finalRecord := none }
      | some video =>
        if video.transcriptionStatus = .COMPLETED ∧ truthyStr video.transcription then
          { response := { httpStatus := 200, success := some true,
                          transcription := some video.transcription,
                          bodyStatus := some "COMPLETED", cached := some true },
            writes := [], finds := 1, pipelineInvoked := false,
            finalRecord := some video }
        else if db.procWriteThrows then
          { response := internalError, writes := [], finds := 1,
            pipelineInvoked := false, finalRecord := some video }
        else
          let procW : DbWrite := { status := .PROCESSING }
          let v1 := applyWrite video procW
          match pipe with
          | .ok result =>
            match db.succWriteThrows with
            | some e =>
              if db.failWriteThrows then
                { response := internalError, writes := [procW], finds := 1,
                  pipelineInvoked := true, finalRecord := some v1 }
              else
                let failW : DbWrite := { status := .FAILED }
                { response := { httpStatus := 500,
                                error := some (errMessage e "Transcription failed") },
                  writes := [procW, failW], finds := 1, pipelineInvoked := true,
                  finalRecord := some (applyWrite v1 failW) }
            | none =>
              let succW : DbWrite :=
                { status := .COMPLETED
                  transcription := some result.text
                  duration := some (if truthyNum result.duration then
                      some ((jsRound (result.duration.getD 0) : ℤ) : ℚ)
                    else video.duration) }
              let v2 := applyWrite v1 succW
              { response := { httpStatus := 200, success := some true,
                              transcription := some v2.transcription,
                              bodyStatus := some "COMPLETED",
                              duration := some v2.duration },
                writes := [procW, succW], finds := 1, pipelineInvoked := true,
                finalRecord := some v2 }
          | .error e =>
            if db.failWriteThrows then
              { response := internalError, writes := [procW], finds := 1,
                pipelineInvoked := true, finalRecord := some v1 }
            else
              let failW : DbWrite := { status := .FAILED }
              { response := { httpStatus := 500,
                              error := some (errMessage e "Transcription failed") },
                writes := [procW, failW], finds := 1, pipelineInvoked := true,
                finalRecord := some (applyWrite v1 failW) }

/-- Behaviour of the collaborators of `transcribeVideo` during one run:
the outcome of `downloadToTemp` (the temp path it returns, or what it
throws), of `extractAndCompressAudio` on a given video path, of
`transcribeAudio` on a given audio path, and whether `fs.unlink` throws
for a given path during cleanup. -/
structure StageEnv where
  download : Except Thrown String
  extract : String → Except Thrown String
  transcribeStage : String → Except Thrown TranscriptionResult
  unlinkThrows : String → Bool

/-- One `fs.unlink(filePath)` call: throws for paths the filesystem
rejects (already deleted, permissions, ...). -/
def unlinkCall (env : StageEnv) (p : String) : Except Thrown Unit :=
  if env.unlinkThrows p then .error (some "unlink failed") else .ok ()

/-- `cleanupTempFiles(...paths)` of `whisper.ts`: unlink each path in order,
with each unlink wrapped in `try { ... } catch { /* ignore */ }`. -/
def cleanupTempFiles (env : StageEnv) : List String → Except Thrown Unit
  | [] => .ok ()
  | p :: ps =>
      match unlinkCall env p with
      | .ok _ => cleanupTempFiles env ps
      | .error _ => cleanupTempFiles env ps

/-- `[videoPath, audioPath].filter(Boolean)`: drop `null` and `""`. -/
def filterBoolean (l : List (Option String)) : List String :=
  l.filterMap fun o =>
    match o with
    | none => none
    | some s => if s = "" then none else some s

/-- Everything observable about one run of `transcribeVideo`: its
result (the value returned or the value thrown), the list of paths passed
to `cleanupTempFiles` (empty when the guard skipped the call), and whether
`cleanupTempFiles` was called at all. -/
structure RunOutput where
  result : Except Thrown TranscriptionResult
  cleaned : List String
  cleanupCalled : Bool
deriving Repr

/-- The exit path of `transcribeVideo`: the `finally` block runs with the
current `videoPath` / `audioPath` bindings, then the pending result `res`
(return value or pending exception) is delivered — unless the `finally`
block itself throws, in which case its exception replaces `res`.  The guard
`if (videoPath || audioPath)` and the argument `[videoPath, audioPath]
.filter(Boolean)` follow JavaScript truthiness. -/
def runExit (env : StageEnv) (res : Except Thrown TranscriptionResult)
    (vp ap : Option String) : RunOutput :=
  if truthyStr vp || truthyStr ap then
    let ps := filterBoolean [vp, ap]
    match cleanupTempFiles env ps with
    | .error ce => { result := .error ce, cleaned := ps, cleanupCalled := true }
    | .ok _ => { result := res, cleaned := ps, cleanupCalled := true }
  else
    { result := res, cleaned := [], cleanupCalled := false }

/-- `transcribeVideo(videoUrl)` of `whisper.ts`: download, then extract,
then transcribe, each step aborting to the `finally` block on a thrown
error; the `finally` block cleans up whichever temp paths were bound. -/
def transcribeVideo (env : StageEnv) : RunOutput :=
  match env.download with
  | .error e => runExit env (.error e) none none
  | .ok videoPath =>
    match env.extract videoPath with
    | .error e => runExit env (.error e) (some videoPath) none
    | .ok audioPath =>
      match env.transcribeStage audioPath with
      | .error e => runExit env (.error e) (some videoPath) (some audioPath)
      | .ok result => runExit env (.ok result) (some videoPath) (some audioPath)

/-- The pure stage composition of `transcribeVideo`, without cleanup:
what the run returns or throws is exactly the first stage failure, else
the transcription result. -/
def stageOutcome (env : StageEnv) : Except Thrown TranscriptionResult :=
  match env.download with
  | .error e => .error e
  | .ok videoPath =>
    match env.extract videoPath with
    | .error e => .error e
    | .ok audioPath => env.transcribeStage audioPath

/-- The temp paths successfully allocated (bound to `videoPath` /
`audioPath`) before the run's failure point — all of them, on success. -/
def allocatedPaths (env : StageEnv) : List String :=
  match env.download with
  | .error _ => []
  | .ok videoPath =>
    match env.extract videoPath with
    | .error _ => [videoPath]
    | .ok audioPath => [videoPath, audioPath]

/-- Decimal rendering of a natural number, as JavaScript template-literal
interpolation renders an integer `Date.now()` value. -/
def jsNatRepr (n : Nat) : String :=
  String.mk (if n = 0 then ['0'] else ((Nat.digits 10 n).map Nat.digitChar).reverse)

/-- The scratch directory `os.tmpdir()`, a single shared directory. -/
def osTmpDir : String := "/tmp/"

/-- The two kinds of temp file the pipeline allocates. -/
inductive TempKind where
  | video
  | audio
deriving DecidableEq, Repr

/-- One temp-path allocation call: `callId` distinguishes distinct calls
(two concurrent calls are distinct even when they observe the same clock
value); `now` is the `Date.now()` millisecond value the call observes. -/
structure AllocCall where
  callId : Nat
  kind : TempKind
  now : Nat
deriving DecidableEq, Repr

/-- The path an allocation call produces:
`path.join(tempDir, `video_${Date.now()}.mp4`)` in `downloadToTemp`,
`path.join(tempDir, `audio_${Date.now()}.mp3`)` in
`extractAndCompressAudio`.  The path depends only on the kind and the
observed clock value, not on the call identity. -/
def allocatePath (c : AllocCall) : String :=
  match c.kind with
  | .video => osTmpDir ++ "video_" ++ jsNatRepr c.now ++ ".mp4"
  | .audio => osTmpDir ++ "audio_" ++ jsNatRepr c.now ++ ".mp3"

/-! Helper lemmas. -/

theorem digitChar_inj_of_lt {a b : Nat} (ha : a < 10) (hb : b < 10)
    (h : Nat.digitChar a = Nat.digitChar b) : a = b := by
  have key : ∀ i j : Fin 10, Nat.digitChar i.val = Nat.digitChar j.val → i = j := by
    decide
  have := key ⟨a, ha⟩ ⟨b, hb⟩ h
  exact congrArg Fin.val this

theorem map_digitChar_inj : ∀ l₁ l₂ : List Nat, (∀ x ∈ l₁, x < 10) →
    (∀ x ∈ l₂, x < 10) → l₁.map Nat.digitChar = l₂.map Nat.digitChar → l₁ = l₂
  | [], [], _, _, _ => rfl
  | [], _ :: _, _, _, h => by simp at h
  | _ :: _, [], _, _, h => by simp at h
  | a :: l₁, b :: l₂, h₁, h₂, h => by
      simp only [List.map_cons, List.cons.injEq] at h
      have hab : a = b :=
        digitChar_inj_of_lt (h₁ a (List.mem_cons_self a l₁))
          (h₂ b (List.mem_cons_self b l₂)) h.1
      have htl : l₁ = l₂ :=
        map_digitChar_inj l₁ l₂ (fun x hx => h₁ x (List.mem_cons_of_mem _ hx))
          (fun x hx => h₂ x (List.mem_cons_of_mem _ hx)) h.2
      rw [hab, htl]

theorem digits_ten_lt (n : Nat) : ∀ x ∈ Nat.digits 10 n, x < 10 :=
  fun _ hx => Nat.digits_lt_base (by norm_num) hx

theorem jsNatRepr_injective : Function.Injective jsNatRepr := by
  intro n m h
  unfold jsNatRepr at h
  have hdata : (if n = 0 then ['0'] else ((Nat.digits 10 n).map Nat.digitChar).reverse)
      = (if m = 0 then ['0'] else ((Nat.digits 10 m).map Nat.digitChar).reverse) := by
    exact congrArg String.data h
  by_cases hn : n = 0 <;> by_cases hm : m = 0
  · rw [hn, hm]
  · exfalso
    rw [if_pos hn, if_neg hm] at hdata
    have hrev : (Nat.digits 10 m).map Nat.digitChar = ['0'] := by
      have := congrArg List.reverse hdata
      simpa using this.symm
    rcases hd : Nat.digits 10 m with _ | ⟨d, rest⟩
    · rw [hd] at hrev; simp at hrev
    · rw [hd] at hrev
      rcases rest with _ | ⟨d', rest'⟩
      · simp only [List.map_cons, List.map_nil, List.cons.injEq] at hrev
        have hd0 : d = 0 := by
          have hlt : d < 10 := digits_ten_lt m d (by rw [hd]; exact List.mem_cons_self d [])
          exact digitChar_inj_of_lt hlt (by norm_num) (by simpa using hrev.1)
        have : m = Nat.ofDigits 10 (Nat.digits 10 m) := (Nat.ofDigits_digits 10 m).symm
        rw [hd, hd0] at this
        simp [Nat.ofDigits] at this
        exact hm this
      · simp at hrev
  · exfalso
    rw [if_neg hn, if_pos hm] at hdata
    have hrev : (Nat.digits 10 n).map Nat.digitChar = ['0'] := by
      have := congrArg List.reverse hdata
      simpa using this
    rcases hd : Nat.digits 10 n with _ | ⟨d, rest⟩
    · rw [hd] at hrev; simp at hrev
    · rw [hd] at hrev
      rcases rest with _ | ⟨d', rest'⟩
      · simp only [List.map_cons, List.map_nil, List.cons.injEq] at hrev
        have hd0 : d = 0 := by
          have hlt : d < 10 := digits_ten_lt n d (by rw [hd]; exact List.mem_cons_self d [])
          exact digitChar_inj_of_lt hlt (by norm_num) (by simpa using hrev.1)
        have : n = Nat.ofDigits 10 (Nat.digits 10 n) := (Nat.ofDigits_digits 10 n).symm
        rw [hd, hd0] at this
        simp [Nat.ofDigits] at this
        exact hn this
      · simp at hrev
  · rw [if_neg hn, if_neg hm] at hdata
    have hmap : (Nat.digits 10 n).map Nat.digitChar = (Nat.digits 10 m).map Nat.digitChar := by
      have := congrArg List.reverse hdata
      simpa using this
    have hdig : Nat.digits 10 n = Nat.digits 10 m :=
      map_digitChar_inj _ _ (digits_ten_lt n) (digits_ten_lt m) hmap
    calc n = Nat.ofDigits 10 (Nat.digits 10 n) := (Nat.ofDigits_digits 10 n).symm
      _ = Nat.ofDigits 10 (Nat.digits 10 m) := by rw [hdig]
      _ = m := Nat.ofDigits_digits 10 m

theorem allocatePath_data (c : AllocCall) :
    (allocatePath c).data =
      (match c.kind with
        | .video => ("/tmp/video_".data ++ (jsNatRepr c.now).data) ++ ".mp4".data
        | .audio => ("/tmp/audio_".data ++ (jsNatRepr c.now).data) ++ ".mp3".data) := by
  rcases c with ⟨i, k, t⟩
  cases k <;> simp [allocatePath, osTmpDir, String.data_append]

theorem jsNatRepr_eq_of_data_eq {n m : Nat}
    (h : (jsNatRepr n).data = (jsNatRepr m).data) : n = m :=
  jsNatRepr_injective (String.ext h)

/-- C8 (counterexample): two distinct allocation calls of the same kind that
observe the same `Date.now()` millisecond value — exactly what two concurrent
`downloadToTemp` calls in the same millisecond do — return the very same
path, so the claim that any two distinct allocation calls return distinct
paths is false. -/
theorem C8_counterexample :
    allocatePath ⟨0, .video, 1700000000000⟩ = allocatePath ⟨1, .video, 1700000000000⟩ ∧
      (⟨0, .video, 1700000000000⟩ : AllocCall) ≠ ⟨1, .video, 1700000000000⟩ := by
  constructor
  · rfl
  · decide

/-- C8 (amended): temp-path allocation is collision-free only across kinds
and across clock values: two allocation calls of different kinds, or of the
same kind observing different `Date.now()` values, return distinct paths.
Two distinct same-kind calls within the same millisecond collide
(see the counterexample). -/
theorem C8_allocatePath_unique (c₁ c₂ : AllocCall)
    (h : c₁.kind ≠ c₂.kind ∨ c₁.now ≠ c₂.now) :
    allocatePath c₁ ≠ allocatePath c₂ := by
  intro heq
  have hdata := congrArg String.data heq
  rw [allocatePath_data, allocatePath_data] at hdata
  rcases c₁ with ⟨i₁, k₁, t₁⟩
  rcases c₂ with ⟨i₂, k₂, t₂⟩
  cases k₁ <;> cases k₂ <;> simp only at hdata
  · have hne : t₁ ≠ t₂ := by
      rcases h with hk | ht
      · exact absurd rfl hk
      · exact ht
    have h₁ := List.append_cancel_right hdata
    have h₂ := List.append_cancel_left h₁
    exact hne (jsNatRepr_eq_of_data_eq h₂)
  · have h5 := congrArg (fun l => l[5]?) hdata
    simp only at h5
    rw [List.getElem?_append_left (by simp), List.getElem?_append_left (by decide),
      List.getElem?_append_left (by simp), List.getElem?_append_left (by decide)] at h5
    revert h5
    decide
  · have h5 := congrArg (fun l => l[5]?) hdata
    simp only at h5
    rw [List.getElem?_append_left (by simp), List.getElem?_append_left (by decide),
      List.getElem?_append_left (by simp), List.getElem?_append_left (by decide)] at h5
    revert h5
    decide
  · have hne : t₁ ≠ t₂ := by
      rcases h with hk | ht
      · exact absurd rfl hk
      · exact ht
    have h₁ := List.append_cancel_right hdata
    have h₂ := List.append_cancel_left h₁
    exact hne (jsNatRepr_eq_of_data_eq h₂)

/-- C8 (witness): the amended uniqueness theorem applied to a concrete pair
of calls, one video and one audio allocation in the same millisecond. -/
theorem C8_witness :
    ((⟨0, .video, 1700000000000⟩ : AllocCall).kind ≠
        (⟨1, .audio, 1700000000000⟩ : AllocCall).kind ∨
      (⟨0, .video, 1700000000000⟩ : AllocCall).now ≠
        (⟨1, .audio, 1700000000000⟩ : AllocCall).now) ∧
    allocatePath ⟨0, .video, 1700000000000⟩ ≠ allocatePath ⟨1, .audio, 1700000000000⟩ :=
  ⟨Or.inl (by decide),
    C8_allocatePath_unique ⟨0, .video, 1700000000000⟩ ⟨1, .audio, 1700000000000⟩
      (Or.inl (by decide))⟩

theorem cleanupTempFiles_ok (env : StageEnv) :
    ∀ ps : List String, cleanupTempFiles env ps = .ok () := by
  intro ps
  induction ps with
  | nil => rfl
  | cons p ps ih =>
      unfold cleanupTempFiles
      rcases unlinkCall env p with e | u <;> simpa using ih

/-- C3: for every run of `transcribeVideo` — whichever stage fails, and on
success as well — every temp path successfully allocated before the exit is
passed to cleanup exactly once, and the run's outcome is exactly the stage
outcome: the stage's original error (or the result) propagates and a
cleanup/deletion failure never replaces it.  The hypotheses state what the
in-repo allocators guarantee: allocated paths are non-empty (they have the
form `video_<ms>.mp4` / `audio_<ms>.mp3`) and the audio path differs from
the video path (distinct name prefixes and extensions). -/
theorem C3_cleanup_invariant (env : StageEnv)
    (hv : ∀ vp, env.download = .ok vp → vp ≠ "")
    (ha : ∀ vp ap, env.download = .ok vp → env.extract vp = .ok ap →
      ap ≠ "" ∧ ap ≠ vp) :
    (transcribeVideo env).result = stageOutcome env ∧
      (transcribeVideo env).cleaned = allocatedPaths env ∧
      ∀ p ∈ allocatedPaths env, ((transcribeVideo env).cleaned).count p = 1 := by
  rcases hdl : env.download with e | vp
  · simp [transcribeVideo, stageOutcome, allocatedPaths, hdl, runExit, truthyStr]
  · have hvp : vp ≠ "" := hv vp hdl
    have hcln1 : cleanupTempFiles env [vp] = .ok () := cleanupTempFiles_ok env [vp]
    rcases hex : env.extract vp with e | ap
    · simp [transcribeVideo, stageOutcome, allocatedPaths, hdl, hex, runExit,
        truthyStr, hvp, filterBoolean, hcln1]
    · obtain ⟨hap, hapvp⟩ := ha vp ap hdl hex
      have hcln2 : cleanupTempFiles env [vp, ap] = .ok () := cleanupTempFiles_ok env [vp, ap]
      rcases htr : env.transcribeStage ap with e | r <;>
        simp [transcribeVideo, stageOutcome, allocatedPaths, hdl, hex, htr, runExit,
          truthyStr, hvp, hap, filterBoolean, hcln2, List.count_cons,
          Ne.symm hapvp, hapvp]

/-- Concrete stage environment for exercising the cleanup invariant: the
download and extraction succeed, the transcription stage throws, and every
filesystem deletion fails. -/
def envTranscribeFails : StageEnv :=
  { download := .ok "/tmp/video_1.mp4"
    extract := fun _ => .ok "/tmp/audio_1.mp3"
    transcribeStage := fun _ => .error (some "boom")
    unlinkThrows := fun _ => true }

/-- C3 (witness): the cleanup invariant at a concrete run in which the
transcription stage fails and even the filesystem deletions fail: both
allocated paths are cleaned exactly once and the stage's error is what
the run reports. -/
theorem C3_witness :
    (∀ vp, envTranscribeFails.download = .ok vp → vp ≠ "") ∧
    (∀ vp ap, envTranscribeFails.download = .ok vp →
      envTranscribeFails.extract vp = .ok ap → ap ≠ "" ∧ ap ≠ vp) ∧
    ((transcribeVideo envTranscribeFails).result = stageOutcome envTranscribeFails ∧
      (transcribeVideo envTranscribeFails).cleaned = allocatedPaths envTranscribeFails ∧
      ∀ p ∈ allocatedPaths envTranscribeFails,
        ((transcribeVideo envTranscribeFails).cleaned).count p = 1) :=
  ⟨fun vp h => by
      injection h with h
      rw [← h]
      decide,
    fun vp ap h₁ h₂ => by
      injection h₁ with h₁
      injection h₂ with h₂
      rw [← h₁, ← h₂]
      constructor <;> decide,
    C3_cleanup_invariant envTranscribeFails
      (fun vp h => by
        injection h with h
        rw [← h]
        decide)
      (fun vp ap h₁ h₂ => by
        injection h₁ with h₁
        injection h₂ with h₂
        rw [← h₁, ← h₂]
        constructor <;> decide)⟩

/-- The status transitions the spec allows:
`NONE/FAILED → PROCESSING → COMPLETED | FAILED`. -/
def allowedTransition : TranscriptionStatus × TranscriptionStatus → Bool
  | (.NONE, .PROCESSING) => true
  | (.FAILED, .PROCESSING) => true
  | (.PROCESSING, .COMPLETED) => true
  | (.PROCESSING, .FAILED) => true
  | _ => false

/-- The consecutive (before, after) status pairs produced by a sequence of
record-store writes starting from an initial status. -/
def statusTrace : TranscriptionStatus → List DbWrite →
    List (TranscriptionStatus × TranscriptionStatus)
  | _, [] => []
  | s, w :: ws => (s, w.status) :: statusTrace w.status ws

/-- The status-changing transitions of a write sequence: consecutive pairs
whose two statuses differ (re-writing the current status is not a
transition). -/
def changedTransitions (s : TranscriptionStatus) (ws : List DbWrite) :
    List (TranscriptionStatus × TranscriptionStatus) :=
  (statusTrace s ws).filter fun p => p.1 ≠ p.2

/-- C1 (counterexample): a stored record with `transcriptionStatus =
COMPLETED` and a non-null transcription — the empty string — is NOT served
from the cache: the route's check `video.transcription` is a truthiness
test, so the empty string fails it, the pipeline is re-run and the record
is re-written.  The claim as stated ("non-null" suffices) is false. -/
theorem C1_counterexample :
    (⟨"v1", "k", some "", .COMPLETED, some 7⟩ : VideoRecord).transcriptionStatus
        = .COMPLETED ∧
    (⟨"v1", "k", some "", .COMPLETED, some 7⟩ : VideoRecord).transcription ≠ none ∧
    (POST (.ok (some "v1")) ⟨true⟩
        ⟨some ⟨"v1", "k", some "", .COMPLETED, some 7⟩, false, false, none, false⟩
        (.ok ⟨"new", none⟩)).pipelineInvoked = true ∧
    (POST (.ok (some "v1")) ⟨true⟩
        ⟨some ⟨"v1", "k", some "", .COMPLETED, some 7⟩, false, false, none, false⟩
        (.ok ⟨"new", none⟩)).response.cached ≠ some true ∧
    (POST (.ok (some "v1")) ⟨true⟩
        ⟨some ⟨"v1", "k", some "", .COMPLETED, some 7⟩, false, false, none, false⟩
        (.ok ⟨"new", none⟩)).writes ≠ [] := by
  refine ⟨rfl, by decide, rfl, by decide, by decide⟩

/-- C1 (amended): for every stored record whose `transcriptionStatus` is
`COMPLETED` and whose `transcription` is non-null AND non-empty (truthy),
the route returns the stored text with `cached = true`, performs no
record-store write, re-runs no pipeline, and leaves the record unchanged;
hence a second call after a completed run with non-empty text returns the
identical text with no pipeline re-execution. -/
theorem C1_cached_completed (v : Option String) (cfg : Config) (db : DbEnv)
    (pipe : Except Thrown TranscriptionResult) (video : VideoRecord) (t : String)
    (hid : truthyStr v = true) (hkey : cfg.apiKeyConfigured = true)
    (hfind : db.findThrows = false) (hrec : db.record = some video)
    (hst : video.transcriptionStatus = .COMPLETED)
    (htx : video.transcription = some t) (hne : t ≠ "") :
    POST (.ok v) cfg db pipe =
      { response := { httpStatus := 200, success := some true,
                      transcription := some (some t), bodyStatus := some "COMPLETED",
                      cached := some true },
        writes := [], finds := 1, pipelineInvoked := false,
        finalRecord := some video } := by
  have htr : truthyStr (some t) = true := by
    simp [truthyStr, hne]
  simp [POST, hid, hkey, hfind, hrec, hst, htx, htr]

/-- C1 (witness): the cache theorem at a concrete completed record with
text `"x"`. -/
theorem C1_witness :
    (truthyStr (some "v1") = true ∧ (⟨true⟩ : Config).apiKeyConfigured = true ∧
      (⟨some ⟨"v1", "k", some "x", .COMPLETED, some 7⟩, false, false, none, false⟩
        : DbEnv).findThrows = false) ∧
    POST (.ok (some "v1")) ⟨true⟩
        ⟨some ⟨"v1", "k", some "x", .COMPLETED, some 7⟩, false, false, none, false⟩
        (.ok ⟨"new", none⟩) =
      { response := { httpStatus := 200, success := some true,
                      transcription := some (some "x"), bodyStatus := some "COMPLETED",
                      cached := some true },
        writes := [], finds := 1, pipelineInvoked := false,
        finalRecord := some ⟨"v1", "k", some "x", .COMPLETED, some 7⟩ } :=
  ⟨⟨by decide, rfl, rfl⟩,
    C1_cached_completed (some "v1") ⟨true⟩ _ _ _ "x" (by decide) rfl rfl rfl rfl
      rfl (by decide)⟩

/-- C2: whenever the pipeline call `transcribeVideo` throws (whichever
stage failed, the orchestrator re-raises it), the route persists
`transcriptionStatus = FAILED` and returns a 500 response whose `error`
field is the thrown error's `.message` when the thrown value is an `Error`,
else the generic `"Transcription failed"`; the record is not left
`PROCESSING`.  The record-store hypotheses (`hproc`, `hfail`) say the
store's own writes succeed: the claim is about pipeline failures, and a
store that itself throws is outside it (the spec's `PersistenceError`
"propagates as generic failure"). -/
theorem C2_failure_persists_FAILED (v : Option String) (cfg : Config)
    (db : DbEnv) (pipe : Except Thrown TranscriptionResult)
    (video : VideoRecord) (e : Thrown)
    (hid : truthyStr v = true) (hkey : cfg.apiKeyConfigured = true)
    (hfind : db.findThrows = false) (hrec : db.record = some video)
    (hnc : ¬(video.transcriptionStatus = .COMPLETED ∧ truthyStr video.transcription))
    (hproc : db.procWriteThrows = false) (hpipe : pipe = .error e)
    (hfail : db.failWriteThrows = false) :
    (POST (.ok v) cfg db pipe).writes =
        [{ status := .PROCESSING }, { status := .FAILED }] ∧
      ((POST (.ok v) cfg db pipe).finalRecord).map VideoRecord.transcriptionStatus
        = some .FAILED ∧
      (POST (.ok v) cfg db pipe).response.httpStatus = 500 ∧
      (POST (.ok v) cfg db pipe).response.error
        = some (errMessage e "Transcription failed") := by
  simp [POST, hid, hkey, hfind, hrec, hnc, hproc, hpipe, hfail, applyWrite]

/-- C2 (witness): the failure-persistence theorem at a concrete record and
a pipeline error carrying message `"boom"`. -/
theorem C2_witness :
    (truthyStr (some "v1") = true ∧
      ¬((⟨"v1", "k", none, .NONE, none⟩ : VideoRecord).transcriptionStatus
          = .COMPLETED ∧
        truthyStr (⟨"v1", "k", none, .NONE, none⟩ : VideoRecord).transcription)) ∧
    ((POST (.ok (some "v1")) ⟨true⟩
        ⟨some ⟨"v1", "k", none, .NONE, none⟩, false, false, none, false⟩
        (.error (some "boom"))).writes =
        [{ status := .PROCESSING }, { status := .FAILED }] ∧
      ((POST (.ok (some "v1")) ⟨true⟩
        ⟨some ⟨"v1", "k", none, .NONE, none⟩, false, false, none, false⟩
        (.error (some "boom"))).finalRecord).map VideoRecord.transcriptionStatus
        = some .FAILED ∧
      (POST (.ok (some "v1")) ⟨true⟩
        ⟨some ⟨"v1", "k", none, .NONE, none⟩, false, false, none, false⟩
        (.error (some "boom"))).response.httpStatus = 500 ∧
      (POST (.ok (some "v1")) ⟨true⟩
        ⟨some ⟨"v1", "k", none, .NONE, none⟩, false, false, none, false⟩
        (.error (some "boom"))).response.error
        = some (errMessage (some "boom") "Transcription failed")) :=
  ⟨⟨by decide, by decide⟩,
    C2_failure_persists_FAILED (some "v1") ⟨true⟩ _ _ _ (some "boom")
      (by decide) rfl rfl rfl (by decide) rfl rfl rfl⟩

/-- C9: when the transcription-service credential
(`process.env.OPENAI_API_KEY`) is not configured, a request with a truthy
`videoId` gets the distinct 500 response `"OpenAI API key not configured"`,
with zero `findUnique` calls, zero writes, and the stored record untouched:
the credential check precedes every record-store access. -/
theorem C9_missing_credential (v : Option String) (cfg : Config) (db : DbEnv)
    (pipe : Except Thrown TranscriptionResult)
    (hid : truthyStr v = true) (hkey : cfg.apiKeyConfigured = false) :
    POST (.ok v) cfg db pipe =
      { response := { httpStatus := 500,
                      error := some "OpenAI API key not configured" },
        writes := [], finds := 0, pipelineInvoked := false,
        finalRecord := db.record } := by
  simp [POST, hid, hkey]

/-- C9 (witness): the missing-credential theorem at a concrete request. -/
theorem C9_witness :
    (truthyStr (some "v1") = true ∧
      (⟨false⟩ : Config).apiKeyConfigured = false) ∧
    POST (.ok (some "v1")) ⟨false⟩
        ⟨some ⟨"v1", "k", none, .NONE, none⟩, false, false, none, false⟩
        (.ok ⟨"t", none⟩) =
      { response := { httpStatus := 500,
                      error := some "OpenAI API key not configured" },
        writes := [], finds := 0, pipelineInvoked := false,
        finalRecord := some ⟨"v1", "k", none, .NONE, none⟩ } :=
  ⟨⟨by decide, rfl⟩,
    C9_missing_credential (some "v1") ⟨false⟩ _ _ (by decide) rfl⟩

/-- C4 (counterexample): the success-path duration update is the truthiness
test `result.duration ? Math.round(result.duration) : video.duration`, so a
service-returned duration of `0` — a returned duration, but falsy — keeps
the record's prior duration `5` instead of updating it to `round(0) = 0`:
the claim's "if the service returns a duration, the record's duration is
updated to the rounded value" is false at duration `0`. -/
theorem C4_counterexample :
    ((POST (.ok (some "v1")) ⟨true⟩
        ⟨some ⟨"v1", "k", none, .NONE, some 5⟩, false, false, none, false⟩
        (.ok ⟨"t", some 0⟩)).finalRecord).map VideoRecord.duration = some (some 5) ∧
      (some (5 : ℚ) : Option ℚ) ≠ some ((jsRound 0 : ℤ) : ℚ) := by
  constructor
  · rfl
  · norm_num [jsRound]

/-- C4 (amended): on a successful run, the duration policy follows
truthiness, not mere presence: if the service returns no duration or
returns the falsy duration `0`, the record's prior duration is persisted
unchanged; if it returns a non-zero duration, the record's duration is
updated to that value rounded to the nearest integer
(e.g. `12.4` becomes `12`). -/
theorem C4_duration_policy (v : Option String) (cfg : Config) (db : DbEnv)
    (pipe : Except Thrown TranscriptionResult) (video : VideoRecord)
    (r : TranscriptionResult)
    (hid : truthyStr v = true) (hkey : cfg.apiKeyConfigured = true)
    (hfind : db.findThrows = false) (hrec : db.record = some video)
    (hnc : ¬(video.transcriptionStatus = .COMPLETED ∧ truthyStr video.transcription))
    (hproc : db.procWriteThrows = false) (hpipe : pipe = .ok r)
    (hsucc : db.succWriteThrows = none) :
    (truthyNum r.duration = false →
      ((POST (.ok v) cfg db pipe).finalRecord).map VideoRecord.duration
        = some video.duration) ∧
    (∀ d : ℚ, r.duration = some d → d ≠ 0 →
      ((POST (.ok v) cfg db pipe).finalRecord).map VideoRecord.duration
        = some (some ((jsRound d : ℤ) : ℚ))) := by
  constructor
  · intro hf
    simp [POST, hid, hkey, hfind, hrec, hnc, hproc, hpipe, hsucc, applyWrite, hf]
  · intro d hd hdne
    have ht : truthyNum (some d) = true := by
      simp [truthyNum, hdne]
    simp [POST, hid, hkey, hfind, hrec, hnc, hproc, hpipe, hsucc, applyWrite, hd, ht]

/-- C4 (witness): the duration policy at the spec's end-to-end scenario A:
the service returns `{text: "hello world", duration: 12.4}` against a
record with no prior duration, and the persisted duration is the rounded
`12.4`. -/
theorem C4_witness :
    (truthyStr (some "v1") = true ∧ (124 / 10 : ℚ) ≠ 0 ∧
      ¬((⟨"v1", "k", none, .NONE, none⟩ : VideoRecord).transcriptionStatus
          = .COMPLETED ∧
        truthyStr (⟨"v1", "k", none, .NONE, none⟩ : VideoRecord).transcription)) ∧
    ((POST (.ok (some "v1")) ⟨true⟩
        ⟨some ⟨"v1", "k", none, .NONE, none⟩, false, false, none, false⟩
        (.ok ⟨"hello world", some (124 / 10)⟩)).finalRecord).map VideoRecord.duration
      = some (some ((jsRound (124 / 10) : ℤ) : ℚ)) :=
  ⟨⟨by decide, by simp, by decide⟩,
    (C4_duration_policy (some "v1") ⟨true⟩ _ _ _ ⟨"hello world", some (124 / 10)⟩
        (by decide) rfl rfl rfl (by decide) rfl rfl rfl).2 (124 / 10) rfl (by simp)⟩

/-- C5 (counterexample): `COMPLETED` is not absorbing.  A record that is
`COMPLETED` with the (reachable: the service can return empty text) empty
transcription fails the truthiness cache check, so the handler re-runs the
pipeline and first writes `PROCESSING`: the status-changing transition
`COMPLETED → PROCESSING`, which the claimed transition relation forbids,
occurs. -/
theorem C5_counterexample :
    changedTransitions .COMPLETED
        (POST (.ok (some "v1")) ⟨true⟩
          ⟨some ⟨"v1", "k", some "", .COMPLETED, some 7⟩, false, false, none, false⟩
          (.ok ⟨"new", none⟩)).writes
      = [(.COMPLETED, .PROCESSING), (.PROCESSING, .COMPLETED)] ∧
    allowedTransition (.COMPLETED, .PROCESSING) = false ∧
    (POST (.ok (some "v1")) ⟨true⟩
        ⟨some ⟨"v1", "k", some "", .COMPLETED, some 7⟩, false, false, none, false⟩
        (.ok ⟨"new", none⟩)).pipelineInvoked = true := by
  exact ⟨rfl, rfl, rfl⟩

/-- C5 (amended): under the invariant that a `COMPLETED` record carries a
truthy (non-null, non-empty) transcription, every status-changing
record-store transition the handler makes is one of
`NONE → PROCESSING`, `FAILED → PROCESSING`, `PROCESSING → COMPLETED`,
`PROCESSING → FAILED`, and `COMPLETED` is absorbing: on a `COMPLETED`
record the handler performs no write and never invokes the pipeline.
(Without that invariant, a `COMPLETED` record with null or empty
transcription is re-processed — see the counterexample.) -/
theorem C5_transitions (req : ReqBody) (cfg : Config) (db : DbEnv)
    (pipe : Except Thrown TranscriptionResult) (video : VideoRecord)
    (hrec : db.record = some video)
    (hinv : video.transcriptionStatus = .COMPLETED →
      truthyStr video.transcription = true) :
    (∀ p ∈ changedTransitions video.transcriptionStatus
        (POST req cfg db pipe).writes, allowedTransition p = true) ∧
    (video.transcriptionStatus = .COMPLETED →
      (POST req cfg db pipe).writes = [] ∧
      (POST req cfg db pipe).pipelineInvoked = false) := by
  rcases req with _ | v
  · simp [POST, changedTransitions, statusTrace]
  · by_cases hid : truthyStr v = false
    · simp [POST, hid, changedTransitions, statusTrace]
    · by_cases hkey : cfg.apiKeyConfigured = false
      · simp [POST, hid, hkey, changedTransitions, statusTrace]
      · by_cases hfind : db.findThrows = true
        · simp [POST, hid, hkey, hfind, changedTransitions, statusTrace]
        · cases hstv : video.transcriptionStatus
          on_goal 3 =>
            have htr := hinv hstv
            simp [POST, hid, hkey, hfind, hrec, hstv, htr, changedTransitions,
              statusTrace]
          all_goals refine ⟨?_, by intro h; exact absurd h (by decide)⟩
          all_goals intro p hp
          all_goals by_cases hproc : db.procWriteThrows = true
          all_goals
            try simp [POST, hid, hkey, hfind, hrec, hstv, hproc,
              changedTransitions, statusTrace] at hp
          all_goals rcases pipe with e | r
          all_goals
            try rcases hsw : db.succWriteThrows with _ | e2
          all_goals
            try by_cases hfail : db.failWriteThrows = true
          all_goals
            simp [POST, hid, hkey, hfind, hrec, hstv, hproc, hsw, hfail,
              changedTransitions, statusTrace] at hp
          all_goals try rcases hp with h | h
          all_goals simp_all [allowedTransition]

/-- C5 (witness): the amended transition theorem at a concrete `COMPLETED`
record with truthy text `"x"`: the handler performs no write and does not
invoke the pipeline. -/
theorem C5_witness :
    ((⟨some ⟨"v1", "k", some "x", .COMPLETED, some 7⟩, false, false, none, false⟩
        : DbEnv).record = some ⟨"v1", "k", some "x", .COMPLETED, some 7⟩ ∧
      truthyStr (⟨"v1", "k", some "x", .COMPLETED, some 7⟩
        : VideoRecord).transcription = true) ∧
    (POST (.ok (some "v1")) ⟨true⟩
        ⟨some ⟨"v1", "k", some "x", .COMPLETED, some 7⟩, false, false, none, false⟩
        (.ok ⟨"new", none⟩)).writes = [] ∧
    (POST (.ok (some "v1")) ⟨true⟩
        ⟨some ⟨"v1", "k", some "x", .COMPLETED, some 7⟩, false, false, none, false⟩
        (.ok ⟨"new", none⟩)).pipelineInvoked = false :=
  ⟨⟨rfl, by decide⟩,
    (C5_transitions (.ok (some "v1")) ⟨true⟩
        ⟨some ⟨"v1", "k", some "x", .COMPLETED, some 7⟩, false, false, none, false⟩
        (.ok ⟨"new", none⟩) ⟨"v1", "k", some "x", .COMPLETED, some 7⟩ rfl
        (fun _ => by decide)).2 rfl⟩

/-- C6: every record-store write the handler performs preserves the
invariant "`transcriptionStatus = COMPLETED` implies `transcription` is
non-null": a write carrying status `COMPLETED` always sets `transcription`
to the service's text (non-null), and applying any single handler write to
any row yields a row satisfying the invariant. -/
theorem C6_completed_write_sets_text (req : ReqBody) (cfg : Config)
    (db : DbEnv) (pipe : Except Thrown TranscriptionResult) :
    ∀ w ∈ (POST req cfg db pipe).writes,
      (w.status = .COMPLETED → w.transcription ≠ none) ∧
      ∀ rec : VideoRecord,
        (applyWrite rec w).transcriptionStatus = .COMPLETED →
          (applyWrite rec w).transcription ≠ none := by
  intro w hw
  rcases req with _ | v <;> unfold POST at hw
  · simp at hw
  · dsimp only at hw
    repeat' split at hw
    all_goals simp_all
    all_goals
      first
        | (rcases hw with h | h <;> subst h <;> simp [applyWrite])
        | (subst hw; simp [applyWrite])

/-- C6 (witness): the write invariant at the concrete `COMPLETED` write of
a successful run: that write carries the text `"hello world"` and applying
it to a blank row yields a `COMPLETED` row with non-null transcription. -/
theorem C6_witness :
    ((⟨.COMPLETED, some "hello world", some none⟩ : DbWrite) ∈
      (POST (.ok (some "v1")) ⟨true⟩
        ⟨some ⟨"v1", "k", none, .NONE, none⟩, false, false, none, false⟩
        (.ok ⟨"hello world", none⟩)).writes) ∧
    (⟨.COMPLETED, some "hello world", some none⟩ : DbWrite).transcription ≠ none ∧
    (applyWrite ⟨"v2", "k2", none, .NONE, none⟩
        ⟨.COMPLETED, some "hello world", some none⟩).transcription ≠ none :=
  ⟨by decide,
    (C6_completed_write_sets_text (.ok (some "v1")) ⟨true⟩
        ⟨some ⟨"v1", "k", none, .NONE, none⟩, false, false, none, false⟩
        (.ok ⟨"hello world", none⟩) ⟨.COMPLETED, some "hello world", some none⟩
        (by decide)).1 rfl,
    (C6_completed_write_sets_text (.ok (some "v1")) ⟨true⟩
        ⟨some ⟨"v1", "k", none, .NONE, none⟩, false, false, none, false⟩
        (.ok ⟨"hello world", none⟩) ⟨.COMPLETED, some "hello world", some none⟩
        (by decide)).2 ⟨"v2", "k2", none, .NONE, none⟩ rfl⟩

/-- C7: on a failing run the record's `transcription` and `duration` are
left unchanged — the two failure-path writes carry only the status field —
so a previously-null transcription stays null and is never overwritten
with partial text.  As in C2, the hypotheses say the request reaches the
pipeline and the record store's own writes succeed. -/
theorem C7_failure_frame (v : Option String) (cfg : Config) (db : DbEnv)
    (pipe : Except Thrown TranscriptionResult) (video : VideoRecord)
    (e : Thrown)
    (hid : truthyStr v = true) (hkey : cfg.apiKeyConfigured = true)
    (hfind : db.findThrows = false) (hrec : db.record = some video)
    (hnc : ¬(video.transcriptionStatus = .COMPLETED ∧ truthyStr video.transcription))
    (hproc : db.procWriteThrows = false) (hpipe : pipe = .error e)
    (hfail : db.failWriteThrows = false) :
    ((POST (.ok v) cfg db pipe).finalRecord).map VideoRecord.transcription
        = some video.transcription ∧
      ((POST (.ok v) cfg db pipe).finalRecord).map VideoRecord.duration
        = some video.duration ∧
      (POST (.ok v) cfg db pipe).writes =
        [{ status := .PROCESSING }, { status := .FAILED }] ∧
      ∀ w ∈ (POST (.ok v) cfg db pipe).writes,
        w.transcription = none ∧ w.duration = none := by
  refine ⟨?_, ?_, ?_, ?_⟩ <;>
    simp [POST, hid, hkey, hfind, hrec, hnc, hproc, hpipe, hfail, applyWrite]

/-- C7 (witness): the failure frame at a concrete record whose
transcription is null: after the failing run it is still null and the
duration is untouched. -/
theorem C7_witness :
    (truthyStr (some "v1") = true ∧
      ¬((⟨"v1", "k", none, .NONE, some 9⟩ : VideoRecord).transcriptionStatus
          = .COMPLETED ∧
        truthyStr (⟨"v1", "k", none, .NONE, some 9⟩ : VideoRecord).transcription)) ∧
    ((POST (.ok (some "v1")) ⟨true⟩
        ⟨some ⟨"v1", "k", none, .NONE, some 9⟩, false, false, none, false⟩
        (.error none)).finalRecord).map VideoRecord.transcription = some none ∧
    ((POST (.ok (some "v1")) ⟨true⟩
        ⟨some ⟨"v1", "k", none, .NONE, some 9⟩, false, false, none, false⟩
        (.error none)).finalRecord).map VideoRecord.duration = some (some 9) ∧
    (POST (.ok (some "v1")) ⟨true⟩
        ⟨some ⟨"v1", "k", none, .NONE, some 9⟩, false, false, none, false⟩
        (.error none)).writes =
      [{ status := .PROCESSING }, { status := .FAILED }] :=
  have h := C7_failure_frame (some "v1") ⟨true⟩
    ⟨some ⟨"v1", "k", none, .NONE, some 9⟩, false, false, none, false⟩
    (.error none) ⟨"v1", "k", none, .NONE, some 9⟩ none
    (by decide) rfl rfl rfl (by decide) rfl rfl rfl
  ⟨⟨by decide, by decide⟩, h.1, h.2.1, h.2.2.1⟩

/-- C10: the handler is total over its collaborators' behaviour: for every
request body (unparsable JSON included), configuration, record-store
behaviour (throwing operations included) and pipeline outcome, it returns
a JSON response with HTTP status 200, 400, 404 or 500 — it never
propagates an exception — and a parsed body with a falsy (absent or empty)
`videoId` yields 400 with no record-store read or write and the stored
record untouched, regardless of whether the credential is configured. -/
theorem C10_totality (req : ReqBody) (cfg : Config) (db : DbEnv)
    (pipe : Except Thrown TranscriptionResult) :
    ((POST req cfg db pipe).response.httpStatus = 200 ∨
      (POST req cfg db pipe).response.httpStatus = 400 ∨
      (POST req cfg db pipe).response.httpStatus = 404 ∨
      (POST req cfg db pipe).response.httpStatus = 500) ∧
    (∀ v, req = .ok v → truthyStr v = false →
      (POST req cfg db pipe).response.httpStatus = 400 ∧
      (POST req cfg db pipe).finds = 0 ∧
      (POST req cfg db pipe).writes = [] ∧
      (POST req cfg db pipe).finalRecord = db.record) := by
  constructor
  · unfold POST
    rcases req with _ | v
    · simp [internalError]
    · dsimp only
      repeat' split
      all_goals simp [internalError]
  · intro u hu hf
    subst hu
    simp [POST, hf]

/-- C10 (witness): totality at a concrete request whose body parsed but
carries no `videoId`, with the credential absent: the response is 400 and
the record store is never touched. -/
theorem C10_witness :
    ((POST (.ok none) ⟨false⟩
        ⟨some ⟨"v1", "k", none, .NONE, none⟩, false, false, none, false⟩
        (.ok ⟨"t", none⟩)).response.httpStatus = 200 ∨
      (POST (.ok none) ⟨false⟩
        ⟨some ⟨"v1", "k", none, .NONE, none⟩, false, false, none, false⟩
        (.ok ⟨"t", none⟩)).response.httpStatus = 400 ∨
      (POST (.ok none) ⟨false⟩
        ⟨some ⟨"v1", "k", none, .NONE, none⟩, false, false, none, false⟩
        (.ok ⟨"t", none⟩)).response.httpStatus = 404 ∨
      (POST (.ok none) ⟨false⟩
        ⟨some ⟨"v1", "k", none, .NONE, none⟩, false, false, none, false⟩
        (.ok ⟨"t", none⟩)).response.httpStatus = 500) ∧
    (truthyStr none = false) ∧
    ((POST (.ok none) ⟨false⟩
        ⟨some ⟨"v1", "k", none, .NONE, none⟩, false, false, none, false⟩
        (.ok ⟨"t", none⟩)).response.httpStatus = 400 ∧
      (POST (.ok none) ⟨false⟩
        ⟨some ⟨"v1", "k", none, .NONE, none⟩, false, false, none, false⟩
        (.ok ⟨"t", none⟩)).finds = 0 ∧
      (POST (.ok none) ⟨false⟩
        ⟨some ⟨"v1", "k", none, .NONE, none⟩, false, false, none, false⟩
        (.ok ⟨"t", none⟩)).writes = [] ∧
      (POST (.ok none) ⟨false⟩
        ⟨some ⟨"v1", "k", none, .NONE, none⟩, false, false, none, false⟩
        (.ok ⟨"t", none⟩)).finalRecord =
        (⟨some ⟨"v1", "k", none, .NONE, none⟩, false, false, none, false⟩
          : DbEnv).record) :=
  have h := C10_totality (.ok none) ⟨false⟩
    ⟨some ⟨"v1", "k", none, .NONE, none⟩, false, false, none, false⟩
    (.ok ⟨"t", none⟩)
  ⟨h.1, by decide, h.2 none rfl (by decide)⟩

end AppTranscribe
